import Mathlib

/-!
Verification of the item-warehouse service and its web client.

The client code (TypeScript, under `src/`) is embedded directly; the
backend service it talks to is not part of the repository's files, so its
operations (registry, pagination, validation) are modelled from the spec
and marked as such in their doc comments.
-/

namespace ItemWarehouse

/-! ## JavaScript values as the client manipulates them -/

/-- A JavaScript runtime value as it can appear in an item cell: the client's
`ItemValue` is `string | number | boolean`, and nullable columns can also make
`null` (or a missing key, `undefined`) reach the renderer.  Numbers are
modelled as integers. -/
inductive JSValue where
  | str (s : String)
  | num (n : Int)
  | bool (b : Bool)
  | null
  | undefined
deriving DecidableEq, Repr

/-- JavaScript `value.toString()`: defined for strings, numbers and booleans;
calling it on `null` or `undefined` throws, modelled as `none`. -/
def jsToString : JSValue → Option String
  | .str s => some s
  | .num n => some (toString n)
  | .bool b => some (if b then "true" else "false")
  | .null => none
  | .undefined => none

/-- JavaScript `String(value)`: total coercion; `null` and `undefined` become
the literal texts "null" and "undefined". -/
def jsStringCoerce : JSValue → String
  | .str s => s
  | .num n => toString n
  | .bool b => if b then "true" else "false"
  | .null => "null"
  | .undefined => "undefined"

/-- A JavaScript object is key/value pairs in insertion order. -/
abbrev JSObject := List (String × JSValue)

/-- JavaScript `Object.keys`. -/
def jsKeys (o : JSObject) : List String := o.map Prod.fst

/-- JavaScript property access `o[k]`: `undefined` when the key is absent. -/
def jsGet (o : JSObject) (k : String) : JSValue := (o.lookup k).getD .undefined

/-! ## The client's declared response and schema types (src/unnamed/part_002) -/

/-- The TypeScript type of a field, as the client declares it. -/
inductive TSType where
  | tsString
  | tsNumber
  | tsBoolean
  | tsRecordStringNumber
deriving DecidableEq, Repr

/-- Embeds interface `WarehouseSchemaProperty` (src/unnamed/part_002 lines
12-22): its fields and their declared TypeScript types, in source order. -/
def warehouseSchemaPropertyFields : List (String × TSType) :=
  [("autoincrement", .tsString),
   ("default", .tsString),
   ("index", .tsBoolean),
   ("key", .tsString),
   ("nullable", .tsNumber),
   ("primary_key", .tsBoolean),
   ("type_kwargs", .tsRecordStringNumber),
   ("type", .tsString),
   ("unique", .tsBoolean)]

/-- Embeds interface `ItemsResponse` (src/unnamed/part_002 lines 5-10): the
field names the client declares on the items-list response. -/
def itemsResponseFields : List String :=
  ["count", "next_offset", "total", "items"]

/-- Embeds interface `WarehousesResponse` (src/unnamed/part_002 lines 31-36):
the field names the client declares on the warehouses-list response. -/
def warehousesResponseFields : List String :=
  ["count", "next_offset", "total", "warehouses"]

/-- The column-spec keys the spec's get-warehouse-schema contract lists.
Written from the spec's words, to be compared with
`warehouseSchemaPropertyFields` taken from the client source. -/
def specColumnSpecKeys : List String :=
  ["type", "type_kwargs", "nullable", "primary_key", "unique", "index",
   "autoincrement", "default"]

/-! ## The client's item fetch (src/unnamed/part_002 lines 38-46) -/

/-- An HTTP GET request, split into its path segments and query parameters. -/
structure ApiRequest where
  path : List String
  query : List (String × String)
deriving DecidableEq, Repr

/-- Embeds `getItemsFromWarehouse` (src/unnamed/part_002 lines 38-46): one GET
of `/v1/warehouses/NAME/items?limit=10` — the only query parameter is
`limit=10`, there is no offset parameter, and the function is called once per
page render (nothing ever reads `next_offset` back into a second request). -/
def getItemsFromWarehouseRequest (warehouseName : String) : ApiRequest :=
  { path := ["v1", "warehouses", warehouseName, "items"]
    query := [("limit", "10")] }

/-! ## The rendered components -/

/-- One rendered table cell: the column header and the text content the `Cell`
component receives. -/
structure RenderedCell where
  header : String
  content : String
deriving DecidableEq, Repr

/-- Embeds the `Item` component of
src/item_warehouse/src/website/components/Item.client.tsx lines 9-17: each
entry of the item is rendered as a `Cell` whose content is `value.toString()`.
A `null` or `undefined` value makes `toString` throw, which aborts the whole
row: modelled by `none`. -/
def renderItemToString : JSObject → Option (List RenderedCell)
  | [] => some []
  | kv :: rest =>
    match jsToString kv.2, renderItemToString rest with
    | some s, some cells => some (⟨kv.1, s⟩ :: cells)
    | _, _ => none

/-- Embeds the `Item` component of
src/item_warehouse/src/website/components/Item.client.tsx lines 28-36: each
entry of the item is rendered as a `Cell` whose content is `String(value)`,
a total coercion. -/
def renderItemStringCoerce (item : JSObject) : List RenderedCell :=
  item.map fun kv => ⟨kv.1, jsStringCoerce kv.2⟩

/-- A rendered item table: the header row and one row of cell values per
item. -/
structure RenderedTable where
  headers : List String
  rows : List (List JSValue)
deriving DecidableEq, Repr

/-- Embeds the `Warehouse` server component of
src/item_warehouse/src/website/components/Warehouse.server.tsx lines 5-31:
when the fetched item list is empty it returns `null` (here `none`); otherwise
the headers are `Object.keys(items[0])` and each row shows `item[header]` for
those headers. -/
def renderWarehouseServer (items : List JSObject) : Option RenderedTable :=
  match items with
  | [] => none
  | first :: _ =>
    some { headers := jsKeys first
           rows := items.map fun item => (jsKeys first).map (jsGet item) }

/-! ## The backend data model

Modelled from the spec: the backend service itself (registry, storage,
validation, pagination) is not among the repository's files — only the client
that calls it is — so the definitions below follow the spec's section 3 and 4
wording. -/

/-- Modelled from the spec: the closed set of logical column types. -/
inductive ColType where
  | integer
  | float
  | text
  | boolean
  | timestamp
deriving DecidableEq, Repr

/-- Modelled from the spec: a stored value.  Floats are modelled as scaled
integers (the claims never compute with them), timestamps as naturals. -/
inductive Value where
  | vInt (i : Int)
  | vFloat (scaled : Int)
  | vStr (s : String)
  | vBool (b : Bool)
  | vTimestamp (t : Nat)
  | vNull
deriving DecidableEq, Repr

/-- Modelled from the spec: a non-null value conforms to a logical type when
its tag matches. -/
def conformsToType : Value → ColType → Bool
  | .vInt _, .integer => true
  | .vFloat _, .float => true
  | .vStr _, .text => true
  | .vBool _, .boolean => true
  | .vTimestamp _, .timestamp => true
  | _, _ => false

/-- Modelled from the spec: one column's declared metadata (spec section 3,
Column Spec). -/
structure ColumnSpec where
  type : ColType
  type_kwargs : List (String × Nat)
  nullable : Bool
  primary_key : Bool
  unique : Bool
  index : Bool
  autoincrement : Bool
  default : Option Value
deriving DecidableEq, Repr

/-- Modelled from the spec: the type-specific parameter the spec names as its
example — a string max length — is enforced; other kwargs are advisory. -/
def kwargsOk (c : ColumnSpec) (v : Value) : Bool :=
  match c.type_kwargs.lookup "max_length", v with
  | some n, .vStr s => s.length ≤ n
  | _, _ => true

/-- Modelled from the spec: a present value satisfies a column when it is
`null` and the column is nullable, or it conforms to the column's type and
type kwargs. -/
def valueOk (c : ColumnSpec) (v : Value) : Bool :=
  match v with
  | .vNull => c.nullable
  | v => conformsToType v c.type && kwargsOk c v

/-- Modelled from the spec: a declared default must itself satisfy the
column's own nullable/type constraints. -/
def defaultOk (c : ColumnSpec) : Bool :=
  match c.default with
  | none => true
  | some v => valueOk c v

/-- Modelled from the spec: a Schema Descriptor (spec section 3). -/
structure Descriptor where
  name : String
  item_name : String
  columns : List (String × ColumnSpec)
  created_at : Nat
deriving DecidableEq, Repr

/-- Modelled from the spec: the Data-Model invariants — unique column keys, at
least one primary-key column, autoincrement only on integer primary keys, and
defaults satisfying their column's constraints. -/
def validDescriptor (d : Descriptor) : Bool :=
  decide (d.columns.map Prod.fst).Nodup
    && d.columns.any (fun kc => kc.2.primary_key)
    && d.columns.all (fun kc =>
        !kc.2.autoincrement || (kc.2.type == ColType.integer && kc.2.primary_key))
    && d.columns.all (fun kc => defaultOk kc.2)

/-- A stored record: column key to stored value (an absent nullable column is
simply missing from the record). -/
abbrev StoredItem := List (String × Value)

/-- Modelled from the spec: a warehouse is one descriptor paired with its
stored items. -/
structure Warehouse where
  descriptor : Descriptor
  items : List StoredItem
deriving DecidableEq, Repr

/-- Modelled from the spec: the registry's catalog, in registration order. -/
abbrev Registry := List Warehouse

/-- Modelled from the spec: the service's error taxonomy (spec section 7). -/
inductive Err where
  | invalidSchema
  | alreadyExists
  | notFound
  | validationError (columns : List String)
  | conflictError (columns : List String)
  | schemaConflict
  | storageFailure
deriving DecidableEq, Repr

/-- Modelled from the spec: look a warehouse up by name in the registry. -/
def lookupWarehouse (reg : Registry) (name : String) : Option Warehouse :=
  reg.find? fun w => w.descriptor.name == name

/-- Modelled from the spec: `register` (spec section 4.1) — fails with
`AlreadyExists` on a name collision, with `InvalidSchema` on an invariant
violation, and creates the warehouse otherwise.  The registry is passed and
returned explicitly, so the returned state shows exactly what a failure
leaves behind. -/
def register (reg : Registry) (d : Descriptor) : Registry × Except Err Unit :=
  if (lookupWarehouse reg d.name).isSome then
    (reg, .error .alreadyExists)
  else if validDescriptor d then
    (reg ++ [{ descriptor := d, items := [] }], .ok ())
  else
    (reg, .error .invalidSchema)

/-- Modelled from the spec: `get(name)` returns the current descriptor or
fails with `NotFound`. -/
def getDescriptor (reg : Registry) (name : String) : Except Err Descriptor :=
  match lookupWarehouse reg name with
  | some w => .ok w.descriptor
  | none => .error .notFound

/-- Modelled from the spec: the get-warehouse-schema operation returns the
column mapping exactly as declared, or fails with `NotFound`. -/
def getWarehouseSchema (reg : Registry) (name : String) :
    Except Err (List (String × ColumnSpec)) :=
  match lookupWarehouse reg name with
  | some w => .ok w.descriptor.columns
  | none => .error .notFound

/-! ## Pagination -/

/-- Modelled from the spec: the shared page shape of every list-style response
(spec section 4.4) — the returned slice, its size, the offset of the next
page (`none` when the slice reaches the end), and the total count at call
time. -/
structure Page (α : Type) where
  slice : List α
  count : Nat
  next_offset : Option Nat
  total : Nat
deriving DecidableEq, Repr

/-- Modelled from the spec: offset/limit windowing over the full result set. -/
def paginate (l : List α) (offset limit : Nat) : Page α :=
  let slice := (l.drop offset).take limit
  { slice := slice
    count := slice.length
    next_offset := if offset + limit < l.length then some (offset + limit) else none
    total := l.length }

/-- Modelled from the spec: the pagination walk — starting at an offset,
fetch a page and, while `next_offset` is present, continue from it,
concatenating the slices.  The first argument of the recursion is fuel, which
the completeness theorem instantiates large enough to cover the whole walk. -/
def walkFrom (l : List α) (limit : Nat) : Nat → Nat → List α
  | 0, _ => []
  | fuel + 1, offset =>
    let p := paginate l offset limit
    match p.next_offset with
    | none => p.slice
    | some next => p.slice ++ walkFrom l limit fuel next

/-- Modelled from the spec: the full item walk of a warehouse — repeatedly
issue the item query from offset 0, following `next_offset` until it is
absent. -/
def queryWalk (w : Warehouse) (limit : Nat) : List StoredItem :=
  walkFrom w.items limit w.items.length 0

/-- Modelled from the spec: exact-match filters applied to one stored item. -/
def matchesFilters (filters : List (String × Value)) (item : StoredItem) : Bool :=
  filters.all fun kv => item.lookup kv.1 == some kv.2

/-- Modelled from the spec: the item query — filter, then window (spec
section 4.3). -/
def listItems (w : Warehouse) (filters : List (String × Value))
    (offset limit : Nat) : Page StoredItem :=
  paginate (w.items.filter (matchesFilters filters)) offset limit

/-! ## Warehouse listing -/

/-- Modelled from the spec: one warehouse summary as the list operation
returns it — name, created_at, item_name and item_schema. -/
structure WarehouseSummary where
  name : String
  created_at : Nat
  item_name : String
  item_schema : List (String × ColumnSpec)
deriving DecidableEq, Repr

/-- The summary of one registered warehouse. -/
def summaryOf (w : Warehouse) : WarehouseSummary :=
  { name := w.descriptor.name
    created_at := w.descriptor.created_at
    item_name := w.descriptor.item_name
    item_schema := w.descriptor.columns }

/-- Modelled from the spec: the stable listing order — `created_at`
ascending, ties broken by `name`. -/
def summaryLe (a b : WarehouseSummary) : Prop :=
  a.created_at < b.created_at ∨ (a.created_at = b.created_at ∧ a.name ≤ b.name)

instance : DecidableRel summaryLe := fun a b =>
  inferInstanceAs
    (Decidable (a.created_at < b.created_at ∨ (a.created_at = b.created_at ∧ a.name ≤ b.name)))

instance : IsTotal WarehouseSummary summaryLe where
  total a b := by
    rcases Nat.lt_trichotomy a.created_at b.created_at with h | h | h
    · exact Or.inl (Or.inl h)
    · rcases le_total a.name b.name with hn | hn
      · exact Or.inl (Or.inr ⟨h, hn⟩)
      · exact Or.inr (Or.inr ⟨h.symm, hn⟩)
    · exact Or.inr (Or.inl h)

instance : IsTrans WarehouseSummary summaryLe where
  trans a b c hab hbc := by
    rcases hab with hab | ⟨hab, hab'⟩
    · rcases hbc with hbc | ⟨hbc, _⟩
      · exact Or.inl (hab.trans hbc)
      · exact Or.inl (hbc ▸ hab)
    · rcases hbc with hbc | ⟨hbc, hbc'⟩
      · exact Or.inl (hab ▸ hbc)
      · exact Or.inr ⟨hab.trans hbc, hab'.trans hbc'⟩

/-- Modelled from the spec: the summaries of every registered warehouse in
the stable listing order. -/
def sortedSummaries (reg : Registry) : List WarehouseSummary :=
  (reg.map summaryOf).insertionSort summaryLe

/-- Modelled from the spec: `list(offset, limit)` (spec section 4.1) — a page
of warehouse summaries in the stable order, plus total count. -/
def listWarehouses (reg : Registry) (offset limit : Nat) : Page WarehouseSummary :=
  paginate (sortedSummaries reg) offset limit

/-! ## Write validation -/

/-- Modelled from the spec: whether one declared column is violated by the
input record (spec section 4.3, steps 2 and 3) — a present value must satisfy
the column; an absent column is fine when it is autoincrement (assigned by
storage), has a default, or is nullable, and violated otherwise. -/
def columnViolated (record : StoredItem) (kc : String × ColumnSpec) : Bool :=
  match record.lookup kc.1 with
  | some v => !valueOk kc.2 v
  | none => !kc.2.autoincrement && !kc.2.default.isSome && !kc.2.nullable

/-- Modelled from the spec: every violated column of a write — the record's
unknown keys (spec section 4.3, step 1) followed by every declared column the
record violates.  All columns are collected, not only the first failure. -/
def violatedColumns (d : Descriptor) (record : StoredItem) : List String :=
  ((record.map Prod.fst).filter fun k => !(d.columns.map Prod.fst).contains k)
    ++ (d.columns.filter (columnViolated record)).map Prod.fst

/-- Modelled from the spec: the values actually stored for a valid write — a
present value is kept as given (never replaced by a default); a default fills
only an absent column; an absent nullable or autoincrement column stays
unset. -/
def appliedRecord (d : Descriptor) (record : StoredItem) : StoredItem :=
  d.columns.filterMap fun kc =>
    match record.lookup kc.1 with
    | some v => some (kc.1, v)
    | none =>
      match kc.2.default with
      | some dv => some (kc.1, dv)
      | none => none

/-- Modelled from the spec: validate a write against the descriptor — fails
with `ValidationError` carrying every violated column, succeeds with the
record to store otherwise. -/
def validate (d : Descriptor) (record : StoredItem) : Except Err StoredItem :=
  let bad := violatedColumns d record
  if bad.isEmpty then .ok (appliedRecord d record) else .error (.validationError bad)

/-- Modelled from the spec: the values storage assigns to absent autoincrement
columns at insert time. -/
def assignAutoincrement (d : Descriptor) (existing : List StoredItem)
    (record : StoredItem) : StoredItem :=
  record ++ d.columns.filterMap fun kc =>
    if kc.2.autoincrement && (record.lookup kc.1).isNone then
      some (kc.1, .vInt (existing.length + 1))
    else none

/-- Modelled from the spec: the unique/primary-key columns on which the new
record collides with an existing item of the same warehouse. -/
def conflictColumns (d : Descriptor) (existing : List StoredItem)
    (record : StoredItem) : List String :=
  (d.columns.filter fun kc => kc.2.unique || kc.2.primary_key).filterMap fun kc =>
    match record.lookup kc.1 with
    | some v => if existing.any fun it => it.lookup kc.1 == some v then some kc.1 else none
    | none => none

/-- Modelled from the spec: `insert(name, record)` at the level of one
warehouse — validate, assign autoincrement values, check collisions, persist.
The warehouse is passed and returned explicitly so a failure's effect on
state is visible. -/
def insertItem (w : Warehouse) (record : StoredItem) :
    Warehouse × Except Err StoredItem :=
  match validate w.descriptor record with
  | .error e => (w, .error e)
  | .ok applied =>
    let stored := assignAutoincrement w.descriptor w.items applied
    let conflicts := conflictColumns w.descriptor w.items stored
    if conflicts.isEmpty then
      ({ w with items := w.items ++ [stored] }, .ok stored)
    else
      (w, .error (.conflictError conflicts))

/-- Modelled from the spec: `update(name, key, patch)` revalidates only the
changed columns — the same per-column criterion as insert, applied to the
patch. -/
def updateViolatedColumns (d : Descriptor) (patch : StoredItem) : List String :=
  ((patch.map Prod.fst).filter fun k => !(d.columns.map Prod.fst).contains k)
    ++ (d.columns.filter fun kc => (patch.lookup kc.1).isSome && columnViolated patch kc).map
        Prod.fst

/-- Modelled from the spec: whether a stored item is the one identified by the
given primary-key value(s) — every primary-key column of the descriptor must
carry the same value in the item and in the key. -/
def matchesKey (d : Descriptor) (key : List (String × Value)) (item : StoredItem) : Bool :=
  (d.columns.filter fun kc => kc.2.primary_key).all fun kc =>
    item.lookup kc.1 == key.lookup kc.1

/-- Modelled from the spec: apply a partial update to one item — a patched
column replaces the item's value, and a patch key the item lacked is added. -/
def applyPatch (item patch : StoredItem) : StoredItem :=
  (item.map fun kv =>
    match patch.lookup kv.1 with
    | some v => (kv.1, v)
    | none => kv)
    ++ patch.filter fun kv => !(item.map Prod.fst).contains kv.1

/-- Modelled from the spec: `update(name, key, patch)` at the level of one
warehouse — find the single item identified by its primary-key value(s)
(`NotFound` otherwise), revalidate only the changed columns
(`ValidationError` listing every violated column), re-check unique and
primary-key collisions excluding the record being updated (`ConflictError`),
and store the patched item.  The warehouse is passed and returned explicitly
so a failure's effect on state is visible. -/
def updateItem (w : Warehouse) (key : List (String × Value)) (patch : StoredItem) :
    Warehouse × Except Err StoredItem :=
  match w.items.findIdx? (matchesKey w.descriptor key) with
  | none => (w, .error .notFound)
  | some i =>
    if (updateViolatedColumns w.descriptor patch).isEmpty then
      if (conflictColumns w.descriptor (w.items.eraseIdx i)
            (applyPatch (w.items.getD i []) patch)).isEmpty then
        ({ w with items := w.items.set i (applyPatch (w.items.getD i []) patch) },
         .ok (applyPatch (w.items.getD i []) patch))
      else
        (w, .error (.conflictError (conflictColumns w.descriptor (w.items.eraseIdx i)
             (applyPatch (w.items.getD i []) patch))))
    else
      (w, .error (.validationError (updateViolatedColumns w.descriptor patch)))

/-- A single column's violation, stated independently of how `violatedColumns`
aggregates: the key is unknown to the descriptor, or its declared column is
violated by the record. -/
def violatesColumn (d : Descriptor) (record : StoredItem) (k : String) : Prop :=
  (k ∈ record.map Prod.fst ∧ k ∉ d.columns.map Prod.fst)
    ∨ ∃ c, d.columns.lookup k = some c ∧ columnViolated record (k, c) = true

/-- A single changed column's violation in a partial update, stated
independently of how `updateViolatedColumns` aggregates: the key is unknown
to the descriptor, or the patch supplies a value that fails its declared
column's constraints (an absent column is never a violation of an update). -/
def violatesUpdateColumn (d : Descriptor) (patch : StoredItem) (k : String) : Prop :=
  (k ∈ patch.map Prod.fst ∧ k ∉ d.columns.map Prod.fst)
    ∨ ∃ c v, d.columns.lookup k = some c ∧ patch.lookup k = some v ∧ valueOk c v = false

/-! ## The server as the client's fetch sees it -/

/-- Decimal parsing of a query parameter's text. -/
def parseDec (s : String) : Option Nat :=
  let ds := s.data
  if ds.isEmpty then none
  else if ds.all Char.isDigit then
    some (ds.foldl (fun n c => n * 10 + (c.toNat - 48)) 0)
  else none

/-- The limit a request carries, or the service default when absent or
unparsable. -/
def requestedLimit (r : ApiRequest) (dflt : Nat) : Nat :=
  match r.query.lookup "limit" with
  | some s => (parseDec s).getD dflt
  | none => dflt

/-- The offset a request carries; 0 when absent (the spec's default). -/
def requestedOffset (r : ApiRequest) : Nat :=
  match r.query.lookup "offset" with
  | some s => (parseDec s).getD 0
  | none => 0

/-- Modelled from the spec: the items page a warehouse's full item list yields
for one GET request. -/
def serveItems (allItems : List StoredItem) (r : ApiRequest) (dflt : Nat) :
    Page StoredItem :=
  paginate allItems (requestedOffset r) (requestedLimit r dflt)

/-- The item list the warehouse page renders for a warehouse whose backend
holds `allItems`: the single response to the client's one fixed request
(src/unnamed/part_002 lines 38-46 builds it; the `Warehouse` server component,
src/item_warehouse/src/website/components/Warehouse.server.tsx lines 47-59
and 80-84, renders exactly the returned items and issues no further
request). -/
def warehousePageItems (allItems : List StoredItem) (warehouseName : String)
    (dflt : Nat) : List StoredItem :=
  (serveItems allItems (getItemsFromWarehouseRequest warehouseName) dflt).slice

/-! ## Helper lemmas -/

theorem find?_append_of_none {α : Type} {p : α → Bool} {l₁ l₂ : List α}
    (h : l₁.find? p = none) : (l₁ ++ l₂).find? p = l₂.find? p := by
  induction l₁ with
  | nil => rfl
  | cons a l ih =>
    by_cases hp : p a
    · simp [List.find?_cons_of_pos _ hp] at h
    · simp only [List.find?_cons_of_neg _ hp] at h
      simpa [List.find?_cons_of_neg _ hp] using ih h

theorem lookup_eq_some_of_mem_nodup {α β : Type} [BEq α] [LawfulBEq α]
    {l : List (α × β)} (hnd : (l.map Prod.fst).Nodup) {k : α} {c : β}
    (h : (k, c) ∈ l) : l.lookup k = some c := by
  induction l with
  | nil => cases h
  | cons kc l ih =>
    simp only [List.map_cons, List.nodup_cons] at hnd
    rcases List.mem_cons.mp h with h | h
    · cases h
      simp [List.lookup]
    · have hne : k ≠ kc.1 := by
        intro hk
        exact hnd.1 (hk ▸ List.mem_map_of_mem Prod.fst h)
      simp [List.lookup, beq_false_of_ne hne, ih hnd.2 h]

theorem mem_of_lookup_eq_some {α β : Type} [BEq α] [LawfulBEq α]
    {l : List (α × β)} {k : α} {c : β} (h : l.lookup k = some c) : (k, c) ∈ l := by
  induction l with
  | nil => cases h
  | cons kc l ih =>
    by_cases hk : k == kc.1
    · simp only [List.lookup, hk] at h
      injection h with h2
      subst h2
      have hk' : k = kc.1 := eq_of_beq hk
      subst hk'
      simp
    · simp only [List.lookup, hk] at h
      exact List.mem_cons_of_mem _ (ih h)

/-! ## Claim C1 -/

/-- C1 counterexample: the client's declared `WarehouseSchemaProperty` has a
ninth key `key` that the claimed eight-key set lacks, declares `nullable` as a
number (not a boolean) and `autoincrement` as a string (not a boolean). -/
theorem schema_property_shape_cex :
    ("key" ∈ warehouseSchemaPropertyFields.map Prod.fst ∧ "key" ∉ specColumnSpecKeys)
      ∧ warehouseSchemaPropertyFields.lookup "nullable" = some TSType.tsNumber
      ∧ warehouseSchemaPropertyFields.lookup "autoincrement" = some TSType.tsString
      ∧ TSType.tsNumber ≠ TSType.tsBoolean ∧ TSType.tsString ≠ TSType.tsBoolean := by
  decide

/-- C1 (amended): get-warehouse-schema returns the stored column mapping
exactly as declared for a registered name and fails with `NotFound` for an
unknown name; the client's declared column-spec shape has nine keys — the
spec's eight plus `key` — with only `index`, `primary_key` and `unique`
declared boolean, `nullable` a number and `autoincrement` a string. -/
theorem get_warehouse_schema_spec :
    (∀ (reg : Registry) (name : String) (w : Warehouse),
        lookupWarehouse reg name = some w →
        getWarehouseSchema reg name = .ok w.descriptor.columns)
      ∧ (∀ (reg : Registry) (name : String),
          lookupWarehouse reg name = none →
          getWarehouseSchema reg name = .error .notFound)
      ∧ warehouseSchemaPropertyFields.map Prod.fst =
          ["autoincrement", "default", "index", "key", "nullable", "primary_key",
           "type_kwargs", "type", "unique"]
      ∧ (∀ kt ∈ warehouseSchemaPropertyFields,
          kt.2 = TSType.tsBoolean ↔
            kt.1 ∈ (["index", "primary_key", "unique"] : List String)) := by
  refine ⟨fun reg name w h => ?_, fun reg name h => ?_, by decide, by decide⟩
  · simp [getWarehouseSchema, h]
  · simp [getWarehouseSchema, h]

/-! ## Claim C8 -/

/-- C8: the client's item fetch always requests the fixed window `limit=10`
with no offset parameter, so whatever default limit the service uses and
however many items the warehouse holds, the warehouse page receives exactly
the first ten (or fewer) items and never more. -/
theorem frontend_fixed_window :
    (∀ warehouseName : String,
        (getItemsFromWarehouseRequest warehouseName).query.lookup "offset" = none
          ∧ requestedOffset (getItemsFromWarehouseRequest warehouseName) = 0
          ∧ ∀ dflt : Nat,
              requestedLimit (getItemsFromWarehouseRequest warehouseName) dflt = 10)
      ∧ (∀ (allItems : List StoredItem) (warehouseName : String) (dflt : Nat),
          warehousePageItems allItems warehouseName dflt = allItems.take 10
            ∧ (warehousePageItems allItems warehouseName dflt).length ≤ 10) := by
  have h10 : ∀ (warehouseName : String) (dflt : Nat),
      requestedLimit (getItemsFromWarehouseRequest warehouseName) dflt = 10 := by
    intro warehouseName dflt
    have hnat : parseDec "10" = some 10 := by decide
    simp [requestedLimit, getItemsFromWarehouseRequest, hnat, List.lookup]
  constructor
  · intro warehouseName
    exact ⟨rfl, rfl, h10 warehouseName⟩
  · intro allItems warehouseName dflt
    have hoff : requestedOffset (getItemsFromWarehouseRequest warehouseName) = 0 := rfl
    constructor
    · simp [warehousePageItems, serveItems, paginate, hoff, h10]
    · simp only [warehousePageItems, serveItems, paginate, hoff, h10]
      simp only [List.length_take, List.drop_zero]
      omega

/-! ## Claim C9 -/

/-- C9: the `Warehouse` server component renders nothing for an empty item
list; otherwise its column headers are exactly the keys of the first fetched
item, so a key absent from the first item never appears as a column. -/
theorem warehouse_server_render_spec :
    renderWarehouseServer [] = none
      ∧ (∀ (first : JSObject) (rest : List JSObject),
          ∃ rows, renderWarehouseServer (first :: rest) =
            some { headers := jsKeys first, rows := rows })
      ∧ (∀ (first : JSObject) (rest : List JSObject) (t : RenderedTable) (k : String),
          renderWarehouseServer (first :: rest) = some t →
          k ∉ jsKeys first → k ∉ t.headers) := by
  refine ⟨rfl, fun first rest => ⟨_, rfl⟩, fun first rest t k h hk => ?_⟩
  simp only [renderWarehouseServer, Option.some.injEq] at h
  subst h
  exact hk

/-! ## Claim C10 -/

/-- C10 counterexample: the `Item` variant that converts with `String(value)`
turns an item holding a `null` value into a rendered cell with the literal
text "null" — it produces a cell rather than failing. -/
theorem item_render_null_cell_cex :
    renderItemStringCoerce [("reading", JSValue.null)] =
      [{ header := "reading", content := "null" }] := by
  decide

/-- C10 (amended): the `Item` variant converting with `value.toString()`
fails to render any cell of an item holding a `null` or `undefined` value,
while the variant converting with `String(value)` renders that entry as a
cell whose content is the literal text "null" or "undefined". -/
theorem item_render_nullish (item : JSObject) (k : String) (v : JSValue)
    (hv : v = JSValue.null ∨ v = JSValue.undefined) (hm : (k, v) ∈ item) :
    renderItemToString item = none
      ∧ ({ header := k, content := jsStringCoerce v } : RenderedCell) ∈
          renderItemStringCoerce item := by
  constructor
  · induction item with
    | nil => cases hm
    | cons kv rest ih =>
      rcases List.mem_cons.mp hm with h | h
      · have : jsToString kv.2 = none := by
          rcases hv with hv | hv <;> rw [← h, hv] <;> rfl
        simp [renderItemToString, this]
      · have hrest := ih h
        simp only [renderItemToString, hrest]
        cases jsToString kv.2 <;> rfl
  · have := List.mem_map_of_mem
      (fun kv : String × JSValue => ({ header := kv.1, content := jsStringCoerce kv.2 } : RenderedCell)) hm
    simpa [renderItemStringCoerce] using this

/-- C10 witness: the amended statement at the one-entry item holding `null`. -/
theorem item_render_nullish_witness :
    renderItemToString [("reading", JSValue.null)] = none
      ∧ ({ header := "reading", content := jsStringCoerce JSValue.null } : RenderedCell) ∈
          renderItemStringCoerce [("reading", JSValue.null)] :=
  item_render_nullish [("reading", JSValue.null)] "reading" JSValue.null
    (Or.inl rfl) (by decide)

/-! ## Claim C2 -/

theorem paginate_fields {α : Type} (l : List α) (o k : Nat) :
    (paginate l o k).total = l.length
      ∧ (paginate l o k).count = (paginate l o k).slice.length
      ∧ ((paginate l o k).next_offset = none ↔
          l.length ≤ o + (paginate l o k).count) := by
  refine ⟨rfl, rfl, ?_⟩
  simp only [paginate, List.length_take, List.length_drop]
  split_ifs with h
  · simp only [reduceCtorEq, false_iff]
    omega
  · simp only [true_iff]
    omega

/-- C2: every list-style response — the item query and the warehouse list —
carries the returned slice with its count, the total at call time, and a
`next_offset` that is absent exactly when the slice reaches the end of the
result set; the client's declared response types carry those same fields. -/
theorem list_responses_carry_pagination :
    (∀ (w : Warehouse) (filters : List (String × Value)) (o k : Nat),
        (listItems w filters o k).total =
            (w.items.filter (matchesFilters filters)).length
          ∧ (listItems w filters o k).count = (listItems w filters o k).slice.length
          ∧ ((listItems w filters o k).next_offset = none ↔
              (listItems w filters o k).total ≤ o + (listItems w filters o k).count))
      ∧ (∀ (reg : Registry) (o k : Nat),
          (listWarehouses reg o k).total = reg.length
            ∧ (listWarehouses reg o k).count = (listWarehouses reg o k).slice.length
            ∧ ((listWarehouses reg o k).next_offset = none ↔
                (listWarehouses reg o k).total ≤ o + (listWarehouses reg o k).count))
      ∧ itemsResponseFields = ["count", "next_offset", "total", "items"]
      ∧ warehousesResponseFields = ["count", "next_offset", "total", "warehouses"] := by
  refine ⟨fun w filters o k => ?_, fun reg o k => ?_, rfl, rfl⟩
  · exact paginate_fields _ o k
  · have h := paginate_fields (sortedSummaries reg) o k
    have hlen : (sortedSummaries reg).length = reg.length := by
      simp [sortedSummaries]
    exact ⟨h.1.trans hlen, h.2.1, h.2.2⟩

/-! ## Claim C3 -/

theorem walkFrom_eq_drop {α : Type} (l : List α) (limit : Nat) (hl : 0 < limit) :
    ∀ (fuel offset : Nat), l.length ≤ offset + fuel * limit →
      walkFrom l limit fuel offset = l.drop offset := by
  intro fuel
  induction fuel with
  | zero =>
    intro offset h
    simp only [Nat.zero_mul, Nat.add_zero] at h
    simp [walkFrom, List.drop_eq_nil_of_le h]
  | succ fuel ih =>
    intro offset h
    simp only [walkFrom, paginate]
    split_ifs with hlt
    · have hnext := ih (offset + limit) (by
        have : (fuel + 1) * limit = fuel * limit + limit := Nat.succ_mul fuel limit
        omega)
      simp only [hnext]
      rw [← List.drop_drop]
      exact List.take_append_drop limit (l.drop offset)
    · have hle : (l.drop offset).length ≤ limit := by
        simp only [List.length_drop]
        omega
      simp [List.take_of_length_le hle]

/-- C3: for any warehouse and any positive fixed limit, walking the item
query from offset 0 and following `next_offset` until it is absent yields
exactly the warehouse's items — every item exactly once, no duplicates, no
omissions. -/
theorem pagination_walk_complete (w : Warehouse) (limit : Nat) (hl : 0 < limit) :
    queryWalk w limit = w.items := by
  have := walkFrom_eq_drop w.items limit hl w.items.length 0
    (by simpa using Nat.le_mul_of_pos_right w.items.length hl)
  simpa [queryWalk] using this

/-- C3 witness: a three-item warehouse walked with limit 2 yields exactly its
items. -/
theorem pagination_walk_complete_witness :
    queryWalk
      { descriptor :=
          { name := "sensors", item_name := "sensor", columns := [], created_at := 0 }
        items := [[("id", Value.vInt 1)], [("id", Value.vInt 2)], [("id", Value.vInt 3)]] }
      2 =
      [[("id", Value.vInt 1)], [("id", Value.vInt 2)], [("id", Value.vInt 3)]] :=
  pagination_walk_complete
    { descriptor :=
        { name := "sensors", item_name := "sensor", columns := [], created_at := 0 }
      items := [[("id", Value.vInt 1)], [("id", Value.vInt 2)], [("id", Value.vInt 3)]] }
    2 (by decide)

/-! ## Claim C4 -/

/-- C4: registering a descriptor that satisfies the Data-Model invariants
under a fresh name succeeds, and `get` on that name then returns the
descriptor identically (round-trip). -/
theorem register_get_roundtrip (reg : Registry) (d : Descriptor)
    (hv : validDescriptor d = true) (hfresh : lookupWarehouse reg d.name = none) :
    (register reg d).2 = .ok () ∧ getDescriptor (register reg d).1 d.name = .ok d := by
  have hreg : register reg d = (reg ++ [{ descriptor := d, items := [] }], .ok ()) := by
    simp [register, hfresh, hv]
  refine ⟨by rw [hreg], ?_⟩
  rw [hreg]
  have hfind : lookupWarehouse (reg ++ [{ descriptor := d, items := [] }]) d.name =
      some { descriptor := d, items := [] } := by
    unfold lookupWarehouse at hfresh ⊢
    rw [find?_append_of_none hfresh]
    simp [List.find?]
  simp [getDescriptor, hfind]

/-- C4 witness: the round-trip at a concrete valid descriptor on the empty
registry. -/
theorem register_get_roundtrip_witness :
    (register []
          { name := "sensors", item_name := "sensor",
            columns := [("id",
              { type := ColType.integer, type_kwargs := [], nullable := false,
                primary_key := true, unique := false, index := false,
                autoincrement := true, default := none })],
            created_at := 0 }).2 = .ok ()
      ∧ getDescriptor
          (register []
            { name := "sensors", item_name := "sensor",
              columns := [("id",
                { type := ColType.integer, type_kwargs := [], nullable := false,
                  primary_key := true, unique := false, index := false,
                  autoincrement := true, default := none })],
              created_at := 0 }).1 "sensors" =
          .ok
            { name := "sensors", item_name := "sensor",
              columns := [("id",
                { type := ColType.integer, type_kwargs := [], nullable := false,
                  primary_key := true, unique := false, index := false,
                  autoincrement := true, default := none })],
              created_at := 0 } :=
  register_get_roundtrip []
    { name := "sensors", item_name := "sensor",
      columns := [("id",
        { type := ColType.integer, type_kwargs := [], nullable := false,
          primary_key := true, unique := false, index := false,
          autoincrement := true, default := none })],
      created_at := 0 }
    (by decide) (by decide)

/-! ## Claim C5 -/

/-- C5: registering a name that is already registered always fails with
`AlreadyExists` and returns the registry exactly as it was — no warehouse's
schema or data changes; more generally any failed registration leaves the
registry untouched, and a successful registration followed by a second
register of the same name fails with `AlreadyExists` on the unchanged new
state. -/
theorem register_existing_fails_without_effect (reg : Registry) (d : Descriptor) :
    (∀ w : Warehouse, lookupWarehouse reg d.name = some w →
        register reg d = (reg, .error .alreadyExists))
      ∧ (∀ e : Err, (register reg d).2 = .error e → (register reg d).1 = reg)
      ∧ (∀ d' : Descriptor, d'.name = d.name → (register reg d).2 = .ok () →
          register (register reg d).1 d' = ((register reg d).1, .error .alreadyExists)) := by
  refine ⟨fun w h => by simp [register, h], fun e => ?_, fun d' hname hok => ?_⟩
  · unfold register
    split_ifs <;> simp
  · by_cases h1 : (lookupWarehouse reg d.name).isSome
    · simp [register, h1] at hok
    · by_cases h2 : validDescriptor d
      · have hreg : register reg d = (reg ++ [{ descriptor := d, items := [] }], .ok ()) := by
          simp [register, h1, h2]
        rw [hreg]
        have hfresh : lookupWarehouse reg d.name = none :=
          Option.not_isSome_iff_eq_none.mp h1
        have hlook : lookupWarehouse (reg ++ [{ descriptor := d, items := [] }]) d'.name =
            some { descriptor := d, items := [] } := by
          rw [hname]
          unfold lookupWarehouse at hfresh ⊢
          rw [find?_append_of_none hfresh]
          simp [List.find?]
        simp [register, hlook]
      · simp [register, h1, h2] at hok

/-! ## Claim C7 -/

/-- C7: the list-warehouses operation returns a page of warehouse summaries
(each of shape name, created_at, item_name, item_schema — the
`WarehouseSummary` structure) windowed from the full summary list in the
stable order `created_at` ascending with ties broken by `name`, together with
`count` (the page size), `next_offset` and `total`. -/
theorem list_warehouses_stable_order (reg : Registry) (o k : Nat) :
    (listWarehouses reg o k).total = reg.length
      ∧ (listWarehouses reg o k).count = (listWarehouses reg o k).slice.length
      ∧ (listWarehouses reg o k).slice = ((sortedSummaries reg).drop o).take k
      ∧ (sortedSummaries reg).Perm (reg.map summaryOf)
      ∧ List.Sorted summaryLe (sortedSummaries reg)
      ∧ List.Sorted summaryLe (listWarehouses reg o k).slice
      ∧ ((listWarehouses reg o k).next_offset = none ↔
          reg.length ≤ o + (listWarehouses reg o k).count) := by
  have hsorted : List.Sorted summaryLe (sortedSummaries reg) :=
    List.sorted_insertionSort summaryLe (reg.map summaryOf)
  have hperm : (sortedSummaries reg).Perm (reg.map summaryOf) :=
    List.perm_insertionSort summaryLe (reg.map summaryOf)
  have hlen : (sortedSummaries reg).length = reg.length := by
    simp [sortedSummaries]
  have hsub : (((sortedSummaries reg).drop o).take k).Sublist (sortedSummaries reg) :=
    (List.take_sublist _ _).trans (List.drop_sublist _ _)
  refine ⟨hlen, rfl, rfl, hperm, hsorted, hsorted.sublist hsub, ?_⟩
  exact hlen ▸ (paginate_fields (sortedSummaries reg) o k).2.2

/-! ## Claim C6 -/

/-- C6: a write — insert or update — that violates column constraints fails
with a `ValidationError` whose column list contains every violated column —
exactly the violated ones, not only the first found — and a present value
that fails validation is never downgraded to the column's default: it still
forces the error, with its column listed.  The same holds on the update path,
which revalidates the changed columns of the patch. -/
theorem validation_lists_every_violated_column (d : Descriptor)
    (record patch : StoredItem) (hnd : (d.columns.map Prod.fst).Nodup) :
    (∀ k : String, k ∈ violatedColumns d record ↔ violatesColumn d record k)
      ∧ (∀ cols : List String,
          validate d record = .error (.validationError cols) →
          cols = violatedColumns d record)
      ∧ (violatedColumns d record ≠ [] →
          validate d record = .error (.validationError (violatedColumns d record)))
      ∧ (∀ (k : String) (c : ColumnSpec) (v : Value),
          d.columns.lookup k = some c → record.lookup k = some v →
          valueOk c v = false →
          validate d record = .error (.validationError (violatedColumns d record))
            ∧ k ∈ violatedColumns d record)
      ∧ (∀ w : Warehouse, w.descriptor = d → violatedColumns d record ≠ [] →
          (insertItem w record).2 =
            .error (.validationError (violatedColumns d record)))
      ∧ (∀ k : String,
          k ∈ updateViolatedColumns d patch ↔ violatesUpdateColumn d patch k)
      ∧ (∀ (w : Warehouse) (key : List (String × Value)) (cols : List String),
          w.descriptor = d →
          (updateItem w key patch).2 = .error (.validationError cols) →
          cols = updateViolatedColumns d patch)
      ∧ (∀ (w : Warehouse) (key : List (String × Value)),
          w.descriptor = d →
          (w.items.findIdx? (matchesKey d key)).isSome →
          updateViolatedColumns d patch ≠ [] →
          (updateItem w key patch).2 =
            .error (.validationError (updateViolatedColumns d patch)))
      ∧ (∀ (k : String) (c : ColumnSpec) (v : Value),
          d.columns.lookup k = some c → patch.lookup k = some v →
          valueOk c v = false → k ∈ updateViolatedColumns d patch) := by
  have hiff : ∀ k : String, k ∈ violatedColumns d record ↔ violatesColumn d record k := by
    intro k
    unfold violatedColumns violatesColumn
    rw [List.mem_append]
    apply or_congr
    · rw [List.mem_filter]
      simp
    · constructor
      · intro h
        rw [List.mem_map] at h
        obtain ⟨kc, hkc, rfl⟩ := h
        rw [List.mem_filter] at hkc
        refine ⟨kc.2, lookup_eq_some_of_mem_nodup hnd ?_, ?_⟩
        · simpa using hkc.1
        · simpa using hkc.2
      · rintro ⟨c, hc, hviol⟩
        have hmem := mem_of_lookup_eq_some hc
        rw [List.mem_map]
        exact ⟨(k, c), List.mem_filter.mpr ⟨hmem, hviol⟩, rfl⟩
  have herr : violatedColumns d record ≠ [] →
      validate d record = .error (.validationError (violatedColumns d record)) := by
    intro hne
    cases hbad : violatedColumns d record with
    | nil => exact absurd hbad hne
    | cons a l => simp [validate, hbad]
  have hiffU : ∀ k : String,
      k ∈ updateViolatedColumns d patch ↔ violatesUpdateColumn d patch k := by
    intro k
    unfold updateViolatedColumns violatesUpdateColumn
    rw [List.mem_append]
    apply or_congr
    · rw [List.mem_filter]
      simp
    · constructor
      · intro h
        rw [List.mem_map] at h
        obtain ⟨kc, hkc, rfl⟩ := h
        rw [List.mem_filter] at hkc
        have hpred := hkc.2
        simp only [Bool.and_eq_true] at hpred
        obtain ⟨v, hv⟩ := Option.isSome_iff_exists.mp hpred.1
        refine ⟨kc.2, v, lookup_eq_some_of_mem_nodup hnd ?_, hv, ?_⟩
        · simpa using hkc.1
        · have hviol := hpred.2
          simp only [columnViolated, hv] at hviol
          simpa using hviol
      · rintro ⟨c, v, hc, hv, hbad⟩
        have hmem := mem_of_lookup_eq_some hc
        rw [List.mem_map]
        refine ⟨(k, c), List.mem_filter.mpr ⟨hmem, ?_⟩, rfl⟩
        simp [columnViolated, hv, hbad]
  have herrU : ∀ (w : Warehouse) (key : List (String × Value)),
      w.descriptor = d →
      (w.items.findIdx? (matchesKey d key)).isSome →
      updateViolatedColumns d patch ≠ [] →
      (updateItem w key patch).2 =
        .error (.validationError (updateViolatedColumns d patch)) := by
    intro w key hw hfound hne
    subst hw
    obtain ⟨i, hi⟩ := Option.isSome_iff_exists.mp hfound
    have hfalse : (updateViolatedColumns w.descriptor patch).isEmpty = false := by
      cases hcase : updateViolatedColumns w.descriptor patch with
      | nil => exact absurd hcase hne
      | cons a l => rfl
    unfold updateItem
    rw [hi]
    simp [hfalse]
  refine ⟨hiff, fun cols h => ?_, herr, fun k c v hc hv hbadv => ?_, fun w hw hne => ?_,
    hiffU, fun w key cols hw h => ?_, herrU,
    fun k c v hc hv hbad => (hiffU k).mpr (Or.inr ⟨c, v, hc, hv, hbad⟩)⟩
  · by_cases he : (violatedColumns d record).isEmpty
    · simp [validate, he] at h
    · have hne : violatedColumns d record ≠ [] := by
        simpa [List.isEmpty_iff] using he
      rw [herr hne] at h
      simp only [Except.error.injEq, Err.validationError.injEq] at h
      exact h.symm
  · have hkmem : k ∈ violatedColumns d record := by
      rw [hiff]
      exact Or.inr ⟨c, hc, by simp [columnViolated, hv, hbadv]⟩
    exact ⟨herr (List.ne_nil_of_mem hkmem), hkmem⟩
  · unfold insertItem
    rw [hw, herr hne]
  · subst hw
    unfold updateItem at h
    split at h
    · simp at h
    · split_ifs at h <;> simp_all

/-- C6 witness: a concrete descriptor with two required columns.  An insert
record with one unknown key has all three violations listed at once through
`validate` and `insert`; an update patch carrying a wrongly-typed value and an
unknown key has both violations listed through `update`. -/
theorem validation_lists_every_violated_column_witness :
    validate
        { name := "sensors", item_name := "sensor",
          columns :=
            [("a",
              { type := ColType.integer, type_kwargs := [], nullable := false,
                primary_key := true, unique := false, index := false,
                autoincrement := false, default := none }),
             ("b",
              { type := ColType.text, type_kwargs := [], nullable := false,
                primary_key := false, unique := true, index := false,
                autoincrement := false, default := none })],
          created_at := 0 }
        [("c", Value.vBool true)] =
      .error
        (.validationError
          (violatedColumns
            { name := "sensors", item_name := "sensor",
              columns :=
                [("a",
                  { type := ColType.integer, type_kwargs := [], nullable := false,
                    primary_key := true, unique := false, index := false,
                    autoincrement := false, default := none }),
                 ("b",
                  { type := ColType.text, type_kwargs := [], nullable := false,
                    primary_key := false, unique := true, index := false,
                    autoincrement := false, default := none })],
              created_at := 0 }
            [("c", Value.vBool true)]))
      ∧ (insertItem
            { descriptor :=
                { name := "sensors", item_name := "sensor",
                  columns :=
                    [("a",
                      { type := ColType.integer, type_kwargs := [], nullable := false,
                        primary_key := true, unique := false, index := false,
                        autoincrement := false, default := none }),
                     ("b",
                      { type := ColType.text, type_kwargs := [], nullable := false,
                        primary_key := false, unique := true, index := false,
                        autoincrement := false, default := none })],
                  created_at := 0 }
              items := [] }
            [("c", Value.vBool true)]).2 =
          .error
            (.validationError
              (violatedColumns
                { name := "sensors", item_name := "sensor",
                  columns :=
                    [("a",
                      { type := ColType.integer, type_kwargs := [], nullable := false,
                        primary_key := true, unique := false, index := false,
                        autoincrement := false, default := none }),
                     ("b",
                      { type := ColType.text, type_kwargs := [], nullable := false,
                        primary_key := false, unique := true, index := false,
                        autoincrement := false, default := none })],
                  created_at := 0 }
                [("c", Value.vBool true)]))
      ∧ (updateItem
            { descriptor :=
                { name := "sensors", item_name := "sensor",
                  columns :=
                    [("a",
                      { type := ColType.integer, type_kwargs := [], nullable := false,
                        primary_key := true, unique := false, index := false,
                        autoincrement := false, default := none }),
                     ("b",
                      { type := ColType.text, type_kwargs := [], nullable := false,
                        primary_key := false, unique := true, index := false,
                        autoincrement := false, default := none })],
                  created_at := 0 }
              items := [[("a", Value.vInt 1), ("b", Value.vStr "x")]] }
            [("a", Value.vInt 1)]
            [("b", Value.vInt 5), ("c", Value.vBool true)]).2 =
          .error
            (.validationError
              (updateViolatedColumns
                { name := "sensors", item_name := "sensor",
                  columns :=
                    [("a",
                      { type := ColType.integer, type_kwargs := [], nullable := false,
                        primary_key := true, unique := false, index := false,
                        autoincrement := false, default := none }),
                     ("b",
                      { type := ColType.text, type_kwargs := [], nullable := false,
                        primary_key := false, unique := true, index := false,
                        autoincrement := false, default := none })],
                  created_at := 0 }
                [("b", Value.vInt 5), ("c", Value.vBool true)])) := by
  have h :=
    validation_lists_every_violated_column
      { name := "sensors", item_name := "sensor",
        columns :=
          [("a",
            { type := ColType.integer, type_kwargs := [], nullable := false,
              primary_key := true, unique := false, index := false,
              autoincrement := false, default := none }),
           ("b",
            { type := ColType.text, type_kwargs := [], nullable := false,
              primary_key := false, unique := true, index := false,
              autoincrement := false, default := none })],
        created_at := 0 }
      [("c", Value.vBool true)]
      [("b", Value.vInt 5), ("c", Value.vBool true)] (by decide)
  exact ⟨h.2.2.1 (by decide), h.2.2.2.2.1 _ rfl (by decide),
    h.2.2.2.2.2.2.2.1 _ _ rfl (by decide) (by decide)⟩

end ItemWarehouse
